import Mathlib

/-!
Verification of the motion-planning / collision-avoidance subsystem of the
multi-unit kitchen-robot coordinator.

The definitions below are a shallow embedding of the Python sources:

* `toio_integration/collision_avoidance.py` (occupancy grid, A* pathfinder,
  safety check),
* `toio_integration/position_tracker.py` (bounded history, velocity
  estimation, position prediction),
* `toio_integration/path_planner.py` (request queue, active plans,
  emergency stop),
* `toio_integration/controller.py` (target reservation, geometric overlap
  tests, and the safe-move operation `move_to_safe`).

Machine integers are modelled as `ℤ`, Python floats as `ℝ` (decimal literals
read exactly), Python `//` as `Int.fdiv`, Python `int()` as truncation toward
zero, Python dicts as insertion-ordered association lists, and fallible
operations as `Option`.  Wall-clock time, where the source reads it, is an
explicit parameter.  The result of a physical motor command on non-simulated
hardware is an environment input recorded in the cube state.
-/

/-- Python `int()` applied to a real number: truncation toward zero. -/
noncomputable def pyInt (x : ℝ) : ℤ := if 0 ≤ x then ⌊x⌋ else ⌈x⌉

/-- Python `int()` applied to an (exact) rational number: truncation toward zero. -/
def pyIntQ (q : ℚ) : ℤ := if 0 ≤ q then ⌊q⌋ else ⌈q⌉

/-- Python `range(start, stop, step)` for a positive step, as a list of integers. -/
def pyRange (start stop step : ℤ) : List ℤ :=
  (List.range (max 0 ((stop - start + step - 1).fdiv step)).toNat).map fun i =>
    start + step * (i : ℤ)

/-- Update the binding of key `k` in an insertion-ordered association list
(the behaviour of assignment into a Python dict): overwrite in place if the
key is present, append otherwise. -/
def updateAssoc {α : Type} (l : List (String × α)) (k : String) (v : α) :
    List (String × α) :=
  if (l.lookup k).isSome then l.map (fun p => if p.1 = k then (k, v) else p)
  else l ++ [(k, v)]

/-! ## Occupancy grid and pathfinder (`collision_avoidance.py`) -/

/-- Grid cell kinds (`CellType`). -/
inductive CellType where
  | FREE
  | OBSTACLE
  | ROBOT
  | RESERVED
deriving DecidableEq

/-- A grid cell (`GridCell`): occupancy kind, traversal cost and the id of the
occupying robot.  The `x`/`y` fields of the Python dataclass are the cell's own
coordinates and are kept implicitly as the index of the cell in the grid. -/
structure GridCell where
  cell_type : CellType := .FREE
  cost : ℚ := 1
  robot_id : Option String := none
deriving DecidableEq

/-- Integer grid coordinates (`Position`). -/
structure Position where
  x : ℤ
  y : ℤ
deriving DecidableEq

/-- Euclidean distance between two positions (`Position.distance_to`). -/
noncomputable def Position.distance_to (p q : Position) : ℝ :=
  Real.sqrt (((p.x - q.x : ℤ) : ℝ) ^ 2 + ((p.y - q.y : ℤ) : ℝ) ^ 2)

/-- Manhattan distance between two positions (`Position.manhattan_distance_to`). -/
def Position.manhattan_distance_to (p q : Position) : ℤ :=
  |p.x - q.x| + |p.y - q.y|

/-- Tracked robot state (`RobotState`).  Only the fields read by the embedded
operations are kept (`target`, `path`, `moving` and `last_update` are written
by the source but never read by the operations under verification). -/
structure RobotState where
  id : String
  position : Position
  safe_radius : ℤ := 25
deriving DecidableEq

/-- State of the `CollisionAvoidanceSystem`: cell size, the grid contents and
the tracked robots.  The mat bounds are the fixed 45–455 range on both axes. -/
structure CASystem where
  grid_size : ℤ
  grid : Position → GridCell
  robots : List (String × RobotState)

/-- `self.grid_width`: `(455 - 45) // grid_size`. -/
def CASystem.grid_width (s : CASystem) : ℤ := (455 - 45 : ℤ).fdiv s.grid_size

/-- `self.grid_height`: `(455 - 45) // grid_size`. -/
def CASystem.grid_height (s : CASystem) : ℤ := (455 - 45 : ℤ).fdiv s.grid_size

/-- A freshly constructed `CollisionAvoidanceSystem(grid_size)`: every cell is
free and no robot is tracked. -/
def initCASystem (gridSize : ℤ) : CASystem :=
  { grid_size := gridSize, grid := fun _ => {}, robots := [] }

/-- `world_to_grid`: floor-divide by the cell size and clamp into grid bounds. -/
def CASystem.world_to_grid (s : CASystem) (world_x world_y : ℤ) : ℤ × ℤ :=
  let grid_x := (world_x - 45).fdiv s.grid_size
  let grid_y := (world_y - 45).fdiv s.grid_size
  (max 0 (min grid_x (s.grid_width - 1)), max 0 (min grid_y (s.grid_height - 1)))

/-- `grid_to_world`: the world coordinates of the center of a grid cell. -/
def CASystem.grid_to_world (s : CASystem) (grid_x grid_y : ℤ) : ℤ × ℤ :=
  (45 + grid_x * s.grid_size + s.grid_size.fdiv 2,
   45 + grid_y * s.grid_size + s.grid_size.fdiv 2)

/-- `_clear_robot_from_grid`: free every in-bounds cell within the robot's
safety square that is currently marked with this robot's id. -/
def CASystem.clear_robot_from_grid (s : CASystem) (robot_id : String)
    (position : Position) : CASystem :=
  match s.robots.lookup robot_id with
  | none => s
  | some st =>
    let src := st.safe_radius.fdiv s.grid_size
    { s with grid := fun p =>
        if -src ≤ p.x - position.x ∧ p.x - position.x ≤ src ∧
           -src ≤ p.y - position.y ∧ p.y - position.y ≤ src ∧
           0 ≤ p.x ∧ p.x < s.grid_width ∧ 0 ≤ p.y ∧ p.y < s.grid_height ∧
           (s.grid p).robot_id = some robot_id
        then { s.grid p with cell_type := .FREE, robot_id := none }
        else s.grid p }

/-- `_mark_robot_on_grid`: mark every free in-bounds cell within the robot's
safety square as occupied by this robot. -/
def CASystem.mark_robot_on_grid (s : CASystem) (robot_id : String)
    (position : Position) : CASystem :=
  match s.robots.lookup robot_id with
  | none => s
  | some st =>
    let src := st.safe_radius.fdiv s.grid_size
    { s with grid := fun p =>
        if -src ≤ p.x - position.x ∧ p.x - position.x ≤ src ∧
           -src ≤ p.y - position.y ∧ p.y - position.y ≤ src ∧
           0 ≤ p.x ∧ p.x < s.grid_width ∧ 0 ≤ p.y ∧ p.y < s.grid_height ∧
           (s.grid p).cell_type = .FREE
        then { s.grid p with cell_type := .ROBOT, robot_id := some robot_id }
        else s.grid p }

/-- `update_robot_position`: clear the old footprint (for a known robot),
record the new grid position, then mark the new footprint. -/
def CASystem.update_robot_position (s : CASystem) (robot_id : String)
    (world_x world_y : ℤ) : CASystem :=
  let g := s.world_to_grid world_x world_y
  let new_position : Position := ⟨g.1, g.2⟩
  let s1 :=
    match s.robots.lookup robot_id with
    | some st =>
      let s2 := s.clear_robot_from_grid robot_id st.position
      { s2 with robots := updateAssoc s2.robots robot_id { st with position := new_position } }
    | none =>
      { s with robots := s.robots ++
          [(robot_id, ({ id := robot_id, position := new_position } : RobotState))] }
  s1.mark_robot_on_grid robot_id new_position

/-- `clear_robot`: clear the robot's footprint and drop it from tracking. -/
def CASystem.clear_robot (s : CASystem) (robot_id : String) : CASystem :=
  match s.robots.lookup robot_id with
  | none => s
  | some st =>
    let s2 := s.clear_robot_from_grid robot_id st.position
    { s2 with robots := s2.robots.filter (fun p => p.1 ≠ robot_id) }

/-- `_is_passable`: in bounds, not an obstacle, and not occupied by another robot. -/
def CASystem.is_passable (s : CASystem) (position : Position) (robot_id : String) : Bool :=
  if ¬(0 ≤ position.x ∧ position.x < s.grid_width ∧
       0 ≤ position.y ∧ position.y < s.grid_height) then false
  else
    let cell := s.grid position
    if cell.cell_type = .OBSTACLE then false
    else if cell.cell_type = .ROBOT ∧ cell.robot_id ≠ some robot_id then false
    else true

/-- `is_safe_to_move`: a passable target is safe; a target cell occupied by
another robot is safe exactly when the distance computed by the source
(between the target's world coordinates and the occupying robot's stored
`Position`, which holds *grid* coordinates) exceeds 50. -/
noncomputable def CASystem.is_safe_to_move (s : CASystem) (robot_id : String)
    (target_world : ℤ × ℤ) : Bool :=
  let tg := s.world_to_grid target_world.1 target_world.2
  let target_pos : Position := ⟨tg.1, tg.2⟩
  if s.is_passable target_pos robot_id then true
  else
    let cell := s.grid target_pos
    if cell.cell_type = .ROBOT ∧ cell.robot_id ≠ some robot_id then
      match cell.robot_id with
      | none => false
      | some occ_id =>
        match s.robots.lookup occ_id with
        | none => false
        | some occupying_robot =>
          let actual_distance : ℝ := Real.sqrt
            (((target_world.1 - occupying_robot.position.x : ℤ) : ℝ) ^ 2 +
             ((target_world.2 - occupying_robot.position.y : ℤ) : ℝ) ^ 2)
          if 50 < actual_distance then true else false
    else false

/-- `_get_move_cost`: the Euclidean step distance, additionally multiplied by
`1.414` for a diagonal step. -/
noncomputable def get_move_cost (from_pos to_pos : Position) : ℝ :=
  let base_cost := from_pos.distance_to to_pos
  if |from_pos.x - to_pos.x| = 1 ∧ |from_pos.y - to_pos.y| = 1 then base_cost * 1.414
  else base_cost

/-- `_get_neighbors`: the in-bounds 8-neighbours of a grid position. -/
def CASystem.get_neighbors (s : CASystem) (position : Position) : List Position :=
  ([(-1, -1), (-1, 0), (-1, 1), (0, -1), (0, 1), (1, -1), (1, 0), (1, 1)] :
      List (ℤ × ℤ)).filterMap fun d =>
    let q : Position := ⟨position.x + d.1, position.y + d.2⟩
    if 0 ≤ q.x ∧ q.x < s.grid_width ∧ 0 ≤ q.y ∧ q.y < s.grid_height then some q
    else none

/-- A* search node (`PathNode`): position, accumulated cost, heuristic, total
cost and the backpointer to the parent node. -/
inductive PathNode where
  | mk (position : Position) (g_cost h_cost f_cost : ℝ) (parent : Option PathNode)

/-- The node's grid position. -/
def PathNode.position : PathNode → Position
  | .mk p _ _ _ _ => p

/-- The node's accumulated cost `g`. -/
def PathNode.g_cost : PathNode → ℝ
  | .mk _ g _ _ _ => g

/-- The node's total cost `f = g + h`, the priority-queue key. -/
def PathNode.f_cost : PathNode → ℝ
  | .mk _ _ _ f _ => f

/-- The node's parent backpointer. -/
def PathNode.parent : PathNode → Option PathNode
  | .mk _ _ _ _ par => par

/-- `_reconstruct_path`: follow parent backpointers to the root and return the
node chain in root-to-goal order. -/
def reconstruct_path : PathNode → List PathNode
  | .mk p g h f parent =>
    (match parent with
     | none => []
     | some par => reconstruct_path par) ++ [.mk p g h f parent]

/-- Helper for `heappop`: scan the list keeping the node with the strictly
smallest `f_cost` seen so far (`seen` accumulates the rejected nodes). -/
noncomputable def popMinAux (best : PathNode) (seen : List PathNode) :
    List PathNode → PathNode × List PathNode
  | [] => (best, seen.reverse)
  | n :: rest =>
    if n.f_cost < best.f_cost then popMinAux n (best :: seen) rest
    else popMinAux best (n :: seen) rest

/-- `heapq.heappop` on the open list: remove and return a node with minimal
`f_cost` (`PathNode.__lt__` orders nodes by `f_cost`; the tie order among
equal keys is internal to the heap and is not relied upon). -/
noncomputable def heappop : List PathNode → Option (PathNode × List PathNode)
  | [] => none
  | n :: rest => some (popMinAux n [] rest)

/-- One run of the `while open_list:` loop of `_astar_search`, with an explicit
fuel parameter bounding the number of iterations; `none` means the fuel ran
out before the loop returned. -/
noncomputable def astar_loop (s : CASystem) (goal : Position) (robot_id : String) :
    Nat → List PathNode → Finset Position → Option (List PathNode)
  | 0, _, _ => none
  | fuel + 1, open_list, closed_set =>
    match heappop open_list with
    | none => some []
    | some (current_node, rest) =>
      if current_node.position ∈ closed_set then
        astar_loop s goal robot_id fuel rest closed_set
      else
        let closed2 := insert current_node.position closed_set
        if current_node.position = goal then some (reconstruct_path current_node)
        else
          let pushes := (s.get_neighbors current_node.position).filterMap
            fun neighbor_pos =>
              if neighbor_pos ∈ closed2 then none
              else if ¬(s.is_passable neighbor_pos robot_id = true) then none
              else
                let move_cost := get_move_cost current_node.position neighbor_pos
                let g := current_node.g_cost + move_cost
                let h := ((neighbor_pos.manhattan_distance_to goal : ℤ) : ℝ)
                some (PathNode.mk neighbor_pos g h (g + h) (some current_node))
          astar_loop s goal robot_id fuel (rest ++ pushes) closed2

/-- The start node built by `_astar_search`: `g = 0`, `h` the Manhattan
distance to the goal, `f = g + h`, no parent. -/
noncomputable def astar_start_node (start goal : Position) : PathNode :=
  let h := ((start.manhattan_distance_to goal : ℤ) : ℝ)
  .mk start 0 h (0 + h) none

/-- The set of in-bounds grid positions of the system. -/
def CASystem.grid_positions (s : CASystem) : Finset Position :=
  ((Finset.Icc 0 (s.grid_width - 1)) ×ˢ (Finset.Icc 0 (s.grid_height - 1))).image
    fun p => ⟨p.1, p.2⟩

/-- Fuel sufficient for `_astar_search` to run to completion: every grid
position is expanded at most once and each expansion pushes at most 8 nodes. -/
def astar_fuel (s : CASystem) (start : Position) : Nat :=
  2 + 9 * (insert start s.grid_positions).card

/-- `_astar_search`: run the loop from the start node with sufficient fuel. -/
noncomputable def CASystem.astar_search (s : CASystem) (start goal : Position)
    (robot_id : String) : List PathNode :=
  (astar_loop s goal robot_id (astar_fuel s start) [astar_start_node start goal] ∅).getD []

/-! ## Position tracker (`position_tracker.py`) -/

/-- One history sample (`PositionHistory`): timestamp and world coordinates. -/
structure PositionHistory where
  timestamp : ℚ
  x : ℤ
  y : ℤ
deriving DecidableEq

/-- State of the `PositionTracker`: last accepted position and the bounded
history list per unit. -/
structure PositionTracker where
  current_positions : List (String × (ℤ × ℤ))
  position_history : List (String × List PositionHistory)
deriving DecidableEq

/-- `get_position_history`: the unit's history, optionally restricted to the
samples no older than `max_age` at time `now`. -/
def PositionTracker.get_position_history (s : PositionTracker) (cube_id : String)
    (max_age : Option ℚ) (now : ℚ) : List PositionHistory :=
  match s.position_history.lookup cube_id with
  | none => []
  | some history =>
    match max_age with
    | none => history
    | some a => history.filter fun record => now - record.timestamp ≤ a

/-- `get_movement_vector`: velocity from the oldest and newest sample within
`time_window`; `none` with fewer than 2 samples or non-positive elapsed time. -/
def PositionTracker.get_movement_vector (s : PositionTracker) (cube_id : String)
    (time_window : ℚ) (now : ℚ) : Option (ℚ × ℚ) :=
  let history := s.get_position_history cube_id (some time_window) now
  if history.length < 2 then none
  else
    match history.head?, history.getLast? with
    | some oldest, some newest =>
      let time_delta := newest.timestamp - oldest.timestamp
      if time_delta ≤ 0 then none
      else some (((newest.x - oldest.x : ℤ) : ℚ) / time_delta,
                 ((newest.y - oldest.y : ℤ) : ℚ) / time_delta)
    | _, _ => none

/-- `predict_position`: the current position extrapolated over `future_time`
by the movement vector (computed with the default 1-second window); the
unchanged current position when no vector is derivable; `none` when the unit
has no current position at all. -/
def PositionTracker.predict_position (s : PositionTracker) (cube_id : String)
    (future_time : ℚ) (now : ℚ) : Option (ℤ × ℤ) :=
  match s.current_positions.lookup cube_id with
  | none => none
  | some current_pos =>
    match s.get_movement_vector cube_id 1 now with
    | none => some current_pos
    | some (dx, dy) =>
      some (pyIntQ ((current_pos.1 : ℚ) + dx * future_time),
            pyIntQ ((current_pos.2 : ℚ) + dy * future_time))

/-! ## Path planner (`path_planner.py`) -/

/-- Request priorities (`PlanningPriority`). -/
inductive PlanningPriority where
  | LOW
  | NORMAL
  | HIGH
  | EMERGENCY
deriving DecidableEq

/-- A queued path request (`PathRequest`). -/
structure PathRequest where
  robot_id : String
  start : ℤ × ℤ
  goal : ℤ × ℤ
  priority : PlanningPriority := .NORMAL
  timestamp : ℚ := 0
  timeout : ℚ := 5
deriving DecidableEq

/-- A planned path (`PathPlan`). -/
structure PathPlan where
  robot_id : String
  path : List (ℤ × ℤ)
  estimated_time : ℚ
  created_time : ℚ := 0
  conflicts : List String := []
deriving DecidableEq

/-- The planner's two tables: the prioritized request queue and the active
plans (its other fields are configuration flags and thread handles). -/
structure PathPlanner where
  planning_queue : List PathRequest
  active_paths : List (String × PathPlan)
deriving DecidableEq

/-- `emergency_stop_all`: clear the request queue and the active-plan table.
The second component of the result records the physical stop commands issued
to units during the call: the source issues none (`path_planner.py:424-432`
only clears the two tables; no stop command exists anywhere in the sources). -/
def PathPlanner.emergency_stop_all (s : PathPlanner) : PathPlanner × List String :=
  ({ planning_queue := [], active_paths := [] }, [])

/-! ## Controller: reservations, overlap tests, safe move (`controller.py`) -/

/-- Movement types used by the controller (`MovementType`). -/
inductive MovementType where
  | Linear
  | Curve
deriving DecidableEq

/-- Per-cube controller state (`CubeState`).  `sim = true` models a simulated
cube (Python `cube is None`); `motor_ok` is the device's response to a motor
command on real hardware (an environment input). -/
structure CubeState where
  id : String
  sim : Bool
  position : Option ((ℤ × ℤ) × ℤ) := none
  connected : Bool := true
  motor_ok : Bool := true
deriving DecidableEq

/-- A physical move command issued to the device-command collaborator. -/
structure MoveCmd where
  cube_id : String
  x : ℤ
  y : ℤ
  angle : ℤ
deriving DecidableEq

/-- Controller state (`ToioController`): the cubes and the target-reservation
table `_reserved_targets`. -/
structure ToioController where
  cubes : List (String × CubeState)
  reserved_targets : List (String × (ℤ × ℤ))
deriving DecidableEq

/-- `get_position`: the cube's last known location, `none` when the cube is
unknown, disconnected, or has produced no telemetry. -/
def ToioController.get_position (s : ToioController) (cube_id : String) :
    Option ((ℤ × ℤ) × ℤ) :=
  match s.cubes.lookup cube_id with
  | none => none
  | some c => if c.connected = false then none else c.position

/-- `get_all_positions`: the point coordinates of every connected cube with a
known position. -/
def ToioController.get_all_positions (s : ToioController) : List (String × (ℤ × ℤ)) :=
  s.cubes.filterMap fun p =>
    match p.2.position with
    | some (pt, _) => if p.2.connected then some (p.1, pt) else none
    | none => none

/-- `move_to`: issue a physical move command.  A simulated cube teleports to
the target and reports success; a real cube's success is the device response. -/
def ToioController.move_to (s : ToioController) (cube_id : String)
    (x y angle : ℤ) (mt : MovementType) : Bool × ToioController × List MoveCmd :=
  match s.cubes.lookup cube_id with
  | none => (false, s, [])
  | some c =>
    if c.connected = false then (false, s, [])
    else if c.sim then
      let moved : CubeState := { c with position := some ((x, y), angle) }
      (true, { s with cubes := updateAssoc s.cubes cube_id moved },
       [⟨cube_id, x, y, angle⟩])
    else (c.motor_ok, s, [⟨cube_id, x, y, angle⟩])

/-- `ccw` (inside `_line_segments_intersect`). -/
def ccw (A B C : ℤ × ℤ) : Bool :=
  decide ((C.2 - A.2) * (B.1 - A.1) > (B.2 - A.2) * (C.1 - A.1))

/-- `_line_segments_intersect`. -/
def line_segments_intersect (p1 p2 p3 p4 : ℤ × ℤ) : Bool :=
  (ccw p1 p3 p4 != ccw p2 p3 p4) && (ccw p1 p2 p3 != ccw p1 p2 p4)

/-- `_line_intersects_rectangle`: an endpoint inside the rectangle, or the
segment crossing one of its four edges. -/
def line_intersects_rectangle (line_start line_end : ℤ × ℤ)
    (rect_left rect_top rect_right rect_bottom : ℤ) : Bool :=
  if (rect_left ≤ line_start.1 ∧ line_start.1 ≤ rect_right ∧
      rect_top ≤ line_start.2 ∧ line_start.2 ≤ rect_bottom) ∨
     (rect_left ≤ line_end.1 ∧ line_end.1 ≤ rect_right ∧
      rect_top ≤ line_end.2 ∧ line_end.2 ≤ rect_bottom) then true
  else
    line_segments_intersect line_start line_end (rect_left, rect_top) (rect_right, rect_top) ||
    line_segments_intersect line_start line_end (rect_left, rect_bottom) (rect_right, rect_bottom) ||
    line_segments_intersect line_start line_end (rect_left, rect_top) (rect_left, rect_bottom) ||
    line_segments_intersect line_start line_end (rect_right, rect_top) (rect_right, rect_bottom)

/-- `_path_intersects_cube_volume`. -/
def path_intersects_cube_volume (path_start path_end cube_center : ℤ × ℤ)
    (cube_size : ℤ) : Bool :=
  let half_size := cube_size.fdiv 2
  line_intersects_rectangle path_start path_end
    (cube_center.1 - half_size) (cube_center.2 - half_size)
    (cube_center.1 + half_size) (cube_center.2 + half_size)

/-- `_cube_volumes_overlap`: axis-aligned square overlap test. -/
def cube_volumes_overlap (pos1 pos2 : ℤ × ℤ) (cube_size : ℤ) : Bool :=
  let half_size := cube_size.fdiv 2
  decide (¬(pos1.1 + half_size < pos2.1 - half_size ∨
            pos1.1 - half_size > pos2.1 + half_size ∨
            pos1.2 + half_size < pos2.2 - half_size ∨
            pos1.2 - half_size > pos2.2 + half_size))

/-- `_point_to_line_distance`: distance from a point to a line segment. -/
noncomputable def point_to_line_distance (point line_start line_end : ℤ × ℤ) : ℝ :=
  let dx := line_end.1 - line_start.1
  let dy := line_end.2 - line_start.2
  if dx = 0 ∧ dy = 0 then
    Real.sqrt (((point.1 - line_start.1 : ℤ) : ℝ) ^ 2 + ((point.2 - line_start.2 : ℤ) : ℝ) ^ 2)
  else
    let t : ℝ := max 0 (min 1
      ((((point.1 - line_start.1) * dx + (point.2 - line_start.2) * dy : ℤ) : ℝ) /
        ((dx * dx + dy * dy : ℤ) : ℝ)))
    let closest_x := (line_start.1 : ℝ) + t * (dx : ℝ)
    let closest_y := (line_start.2 : ℝ) + t * (dy : ℝ)
    Real.sqrt (((point.1 : ℝ) - closest_x) ^ 2 + ((point.2 : ℝ) - closest_y) ^ 2)

/-- `_reserve_target`: refuse when the requested footprint overlaps another
cube's live reservation or current position, otherwise record the reservation. -/
def ToioController.reserve_target (s : ToioController) (cube_id : String)
    (target_pos : ℤ × ℤ) (cube_size : ℤ) : Bool × ToioController :=
  if s.reserved_targets.any fun rp =>
      rp.1 ≠ cube_id && cube_volumes_overlap target_pos rp.2 cube_size then
    (false, s)
  else if (s.get_all_positions).any fun op =>
      op.1 ≠ cube_id && cube_volumes_overlap target_pos op.2 cube_size then
    (false, s)
  else
    (true, { s with reserved_targets := updateAssoc s.reserved_targets cube_id target_pos })

/-- `_release_target`: drop the cube's own reservation, if any. -/
def ToioController.release_target (s : ToioController) (cube_id : String) : ToioController :=
  { s with reserved_targets := s.reserved_targets.filter fun rp => rp.1 ≠ cube_id }

/-- `_target_has_collision`: the target footprint overlaps some other cube's
current position or live reservation. -/
def ToioController.target_has_collision (s : ToioController) (target_pos : ℤ × ℤ)
    (exclude_cube : String) (cube_size : ℤ) : Bool :=
  ((s.get_all_positions).any fun op =>
      op.1 ≠ exclude_cube && cube_volumes_overlap target_pos op.2 cube_size) ||
  (s.reserved_targets.any fun rp =>
      rp.1 ≠ exclude_cube && cube_volumes_overlap target_pos rp.2 cube_size)

/-- `_check_path_collision`: the direct segment hits another cube's volume, or
the target footprint overlaps another cube's position or live reservation. -/
def ToioController.check_path_collision (s : ToioController)
    (start_pos end_pos : ℤ × ℤ) (exclude_cube : String) (cube_size : ℤ) : Bool :=
  let other_positions := (s.get_all_positions).filter fun op => op.1 ≠ exclude_cube
  if other_positions = [] then false
  else
    (other_positions.any fun op =>
        path_intersects_cube_volume start_pos end_pos op.2 cube_size) ||
    (other_positions.any fun op =>
        cube_volumes_overlap end_pos op.2 cube_size) ||
    (s.reserved_targets.any fun rp =>
        rp.1 ≠ exclude_cube && cube_volumes_overlap end_pos rp.2 cube_size)

/-- One loop body of `_find_safe_alternative_target`: the candidate produced
by one `(radius, angle_deg)` pair of the spiral, `none` when out of bounds or
colliding. -/
noncomputable def ToioController.alt_candidate (s : ToioController)
    (original_target : ℤ × ℤ) (cube_id : String) (cube_size radius angle_deg : ℤ) :
    Option (ℤ × ℤ) :=
  let half_size := cube_size.fdiv 2
  let angle_rad : ℝ := (angle_deg : ℝ) * 3.14159 / 180
  let alt_x := pyInt ((original_target.1 : ℝ) + (radius : ℝ) * Real.sqrt angle_rad)
  let alt_y := pyInt ((original_target.2 : ℝ) + (radius : ℝ) * (1 - Real.sqrt angle_rad))
  if half_size + 10 ≤ alt_x ∧ alt_x ≤ 400 - half_size - 10 ∧
     half_size + 10 ≤ alt_y ∧ alt_y ≤ 400 - half_size - 10 then
    if s.target_has_collision (alt_x, alt_y) cube_id cube_size = false then
      some (alt_x, alt_y)
    else none
  else none

/-- `_find_safe_alternative_target`: spiral over radii and angles around the
original target and return the first in-bounds candidate whose footprint is
collision-free. -/
noncomputable def ToioController.find_safe_alternative_target (s : ToioController)
    (original_target : ℤ × ℤ) (cube_id : String) (cube_size : ℤ) : Option (ℤ × ℤ) :=
  let min_distance := cube_size + 15
  (pyRange min_distance (min_distance * 3) 5).findSome? fun radius =>
    ([0, 45, 90, 135, 180, 225, 270, 315] : List ℤ).findSome? fun angle_deg =>
      s.alt_candidate original_target cube_id cube_size radius angle_deg

/-- `_find_primary_obstacle`: among the other cubes whose volume the direct
segment crosses, the one closest to the start (`float('inf')` is modelled by
the `none` accumulator). -/
noncomputable def find_primary_obstacle (start_pos end_pos : ℤ × ℤ)
    (other_positions : List (String × (ℤ × ℤ))) (cube_size : ℤ) : Option (ℤ × ℤ) :=
  (other_positions.foldl
    (fun (acc : Option ℝ × Option (ℤ × ℤ)) op =>
      if path_intersects_cube_volume start_pos end_pos op.2 cube_size then
        let d := Real.sqrt (((start_pos.1 - op.2.1 : ℤ) : ℝ) ^ 2 +
                            ((start_pos.2 - op.2.2 : ℤ) : ℝ) ^ 2)
        match acc.1 with
        | none => (some d, some op.2)
        | some m => if d < m then (some d, some op.2) else acc
      else acc)
    (none, none)).2

/-- `_calculate_avoidance_waypoints`: one waypoint perpendicular to the direct
segment, on the side closer to it, clamped into bounds. -/
noncomputable def calculate_avoidance_waypoints (start_pos end_pos obstacle_pos : ℤ × ℤ)
    (cube_size : ℤ) : List (ℤ × ℤ) :=
  let avoidance_distance : ℝ := (cube_size : ℝ) + 20
  let dx := end_pos.1 - start_pos.1
  let dy := end_pos.2 - start_pos.2
  let length : ℝ := Real.sqrt ((dx : ℝ) ^ 2 + (dy : ℝ) ^ 2)
  if length = 0 then []
  else
    let perp_x : ℝ := -(dy : ℝ) / length
    let perp_y : ℝ := (dx : ℝ) / length
    let left_waypoint := (pyInt ((obstacle_pos.1 : ℝ) + perp_x * avoidance_distance),
                          pyInt ((obstacle_pos.2 : ℝ) + perp_y * avoidance_distance))
    let right_waypoint := (pyInt ((obstacle_pos.1 : ℝ) - perp_x * avoidance_distance),
                           pyInt ((obstacle_pos.2 : ℝ) - perp_y * avoidance_distance))
    let chosen :=
      if point_to_line_distance left_waypoint start_pos end_pos ≤
         point_to_line_distance right_waypoint start_pos end_pos then left_waypoint
      else right_waypoint
    let lb := cube_size.fdiv 2 + 10
    let ub := 400 - cube_size.fdiv 2 - 10
    [(max lb (min ub chosen.1), max lb (min ub chosen.2))]

/-- `_adjust_waypoint`: nudge a conflicting waypoint in up to 8 spiral
directions until its footprint is collision-free and in bounds. -/
noncomputable def ToioController.adjust_waypoint (s : ToioController) (waypoint : ℤ × ℤ)
    (cube_id : String) (cube_size : ℤ) : Option (ℤ × ℤ) :=
  let adjustment_distance := cube_size.fdiv 2 + 5
  let lb := cube_size.fdiv 2 + 10
  let ub := 400 - cube_size.fdiv 2 - 10
  (List.range 8).findSome? fun i =>
    let angle : ℝ := (i : ℝ) * 45 * 3.14159 / 180
    let adj_x := pyInt ((waypoint.1 : ℝ) + (adjustment_distance : ℝ) * Real.sqrt angle)
    let adj_y := pyInt ((waypoint.2 : ℝ) + (adjustment_distance : ℝ) * (1 - Real.sqrt angle))
    if lb ≤ adj_x ∧ adj_x ≤ ub ∧ lb ≤ adj_y ∧ adj_y ≤ ub then
      if s.target_has_collision (adj_x, adj_y) cube_id cube_size = false then
        some (adj_x, adj_y)
      else none
    else none

/-- `_calculate_safe_route`: route around the primary obstacle through
validated (or adjusted) waypoints. -/
noncomputable def ToioController.calculate_safe_route (s : ToioController)
    (start_pos end_pos : ℤ × ℤ) (cube_id : String) (cube_size : ℤ) : List (ℤ × ℤ) :=
  let other_positions := (s.get_all_positions).filter fun op => op.1 ≠ cube_id
  if other_positions = [] then []
  else
    match find_primary_obstacle start_pos end_pos other_positions cube_size with
    | none => []
    | some obstacle_pos =>
      let waypoints := calculate_avoidance_waypoints start_pos end_pos obstacle_pos cube_size
      waypoints.filterMap fun waypoint =>
        if s.target_has_collision waypoint cube_id cube_size = false then some waypoint
        else s.adjust_waypoint waypoint cube_id cube_size

/-- The waypoint loop of `_execute_safe_movement`: move through the waypoints
in order, aborting on the first failed move. -/
noncomputable def move_through_waypoints (cube_id : String) :
    ToioController → List (ℤ × ℤ) → Bool × ToioController × List MoveCmd
  | s, [] => (true, s, [])
  | s, wp :: rest =>
    let r := s.move_to cube_id wp.1 wp.2 0 .Curve
    if r.1 = false then (false, r.2.1, r.2.2)
    else
      let r2 := move_through_waypoints cube_id r.2.1 rest
      (r2.1, r2.2.1, r.2.2 ++ r2.2.2)

/-- `_execute_safe_movement`: a direct curve move when the path is clear,
otherwise waypoint navigation followed by the final move. -/
noncomputable def ToioController.execute_safe_movement (s : ToioController)
    (cube_id : String) (start_pos end_pos : ℤ × ℤ) (angle : ℤ) :
    Bool × ToioController × List MoveCmd :=
  if s.check_path_collision start_pos end_pos cube_id 50 = false then
    s.move_to cube_id end_pos.1 end_pos.2 angle .Curve
  else
    let waypoints := s.calculate_safe_route start_pos end_pos cube_id 50
    if waypoints = [] then (false, s, [])
    else
      let r := move_through_waypoints cube_id s waypoints
      if r.1 = false then r
      else
        let r2 := r.2.1.move_to cube_id end_pos.1 end_pos.2 angle .Curve
        (r2.1, r2.2.1, r.2.2 ++ r2.2.2)

/-- `move_to_safe`: the externally visible safe-move operation.  Unknown or
disconnected cube, or missing telemetry, aborts with `false`.  A target whose
footprint collides is redirected to a safe alternative (aborting when none is
found).  The reservation attempt's boolean outcome is only logged: the
movement proceeds regardless, and the reservation is released at the end. -/
noncomputable def ToioController.move_to_safe (s : ToioController) (cube_id : String)
    (x y angle : ℤ) : Bool × ToioController × List MoveCmd :=
  match s.cubes.lookup cube_id with
  | none => (false, s, [])
  | some c =>
    if c.connected = false then (false, s, [])
    else
      match c.position with
      | none => (false, s, [])
      | some (start_pos, _) =>
        let original_target := (x, y)
        let step1 : Option (ℤ × ℤ) :=
          if s.target_has_collision original_target cube_id 50 then
            s.find_safe_alternative_target original_target cube_id 50
          else some original_target
        match step1 with
        | none => (false, s, [])
        | some end_pos =>
          let s1 := (s.reserve_target cube_id end_pos 50).2
          let r := s1.execute_safe_movement cube_id start_pos end_pos angle
          (r.1, r.2.1.release_target cube_id, r.2.2)

/-! ## Theorems -/

/-- Claim-side notion for the round-trip claim: the index of the 10-unit grid
cell containing world coordinate `w`, for `w` in the surface bounds 45–455;
cell `i` covers `[45 + 10i, 45 + 10(i+1))` and the uppermost cell is closed at
the surface bound 455. -/
def cell_index_containing (w : ℤ) : ℤ := min ((w - 45).fdiv 10) 40

/-- C7: for every world coordinate in the surface bounds, `world_to_grid`
returns the cell containing it, `grid_to_world` of that cell is the cell's
center, and the round trip is idempotent: the center maps back to the same
cell (hence to the same center again). -/
theorem c7_round_trip (x y : ℤ)
    (hx1 : 45 ≤ x) (hx2 : x ≤ 455) (hy1 : 45 ≤ y) (hy2 : y ≤ 455) :
    (initCASystem 10).world_to_grid x y = (cell_index_containing x, cell_index_containing y) ∧
    (45 + 10 * cell_index_containing x ≤ x ∧
      (x < 45 + 10 * cell_index_containing x + 10 ∨ x = 455)) ∧
    (45 + 10 * cell_index_containing y ≤ y ∧
      (y < 45 + 10 * cell_index_containing y + 10 ∨ y = 455)) ∧
    (initCASystem 10).grid_to_world (cell_index_containing x) (cell_index_containing y) =
      (45 + 10 * cell_index_containing x + 5, 45 + 10 * cell_index_containing y + 5) ∧
    (initCASystem 10).world_to_grid (45 + 10 * cell_index_containing x + 5)
        (45 + 10 * cell_index_containing y + 5) =
      (cell_index_containing x, cell_index_containing y) := by
  have h10 : (0 : ℤ) ≤ 10 := by norm_num
  have h2 : (0 : ℤ) ≤ 2 := by norm_num
  simp only [CASystem.world_to_grid, CASystem.grid_to_world, CASystem.grid_width,
    CASystem.grid_height, initCASystem, cell_index_containing,
    Int.fdiv_eq_ediv _ h10, Int.fdiv_eq_ediv _ h2, Prod.mk.injEq]
  norm_num
  omega

/-- Witness for `c7_round_trip` at the concrete in-bounds coordinate (123, 454). -/
theorem c7_round_trip_witness :
    ((45 : ℤ) ≤ 123 ∧ (123 : ℤ) ≤ 455 ∧ (45 : ℤ) ≤ 454 ∧ (454 : ℤ) ≤ 455) ∧
    ((initCASystem 10).world_to_grid 123 454 =
        (cell_index_containing 123, cell_index_containing 454) ∧
      (45 + 10 * cell_index_containing 123 ≤ 123 ∧
        ((123 : ℤ) < 45 + 10 * cell_index_containing 123 + 10 ∨ (123 : ℤ) = 455)) ∧
      (45 + 10 * cell_index_containing 454 ≤ 454 ∧
        ((454 : ℤ) < 45 + 10 * cell_index_containing 454 + 10 ∨ (454 : ℤ) = 455)) ∧
      (initCASystem 10).grid_to_world (cell_index_containing 123) (cell_index_containing 454) =
        (45 + 10 * cell_index_containing 123 + 5, 45 + 10 * cell_index_containing 454 + 5) ∧
      (initCASystem 10).world_to_grid (45 + 10 * cell_index_containing 123 + 5)
          (45 + 10 * cell_index_containing 454 + 5) =
        (cell_index_containing 123, cell_index_containing 454)) :=
  ⟨by norm_num, c7_round_trip 123 454 (by norm_num) (by norm_num) (by norm_num) (by norm_num)⟩

/-- The diagonal-step cost computed by the source: √2 · 1.414. -/
theorem diag_step_cost : get_move_cost ⟨0, 0⟩ ⟨1, 1⟩ = Real.sqrt 2 * 1.414 := by
  simp only [get_move_cost, Position.distance_to]
  norm_num

/-- C8 counterexample: the A* edge cost of the diagonal step from (0,0) to
(1,1) is not √2 (the source multiplies the Euclidean step length, already √2,
by a further 1.414). -/
theorem c8_diagonal_cost_counterexample :
    get_move_cost ⟨0, 0⟩ ⟨1, 1⟩ ≠ Real.sqrt 2 := by
  rw [diag_step_cost]
  intro h
  have hprod : Real.sqrt 2 * 0.414 = 0 := by linarith
  rcases mul_eq_zero.mp hprod with h0 | h0
  · have := Real.sqrt_pos.mpr (by norm_num : (0 : ℝ) < 2)
    linarith
  · norm_num at h0

/-- C8 amended: for every pair of 8-adjacent grid cells the edge cost computed
by `_get_move_cost` is exactly 1 for a horizontal or vertical step and exactly
√2 · 1.414 (not √2) for a diagonal step. -/
theorem c8_move_cost_amended (p q : Position)
    (hx : |p.x - q.x| ≤ 1) (hy : |p.y - q.y| ≤ 1) (hne : ¬(p.x = q.x ∧ p.y = q.y)) :
    get_move_cost p q =
      if |p.x - q.x| = 1 ∧ |p.y - q.y| = 1 then Real.sqrt 2 * 1.414 else 1 := by
  have hx' := abs_le.mp hx
  have hy' := abs_le.mp hy
  have hx3 : p.x - q.x = -1 ∨ p.x - q.x = 0 ∨ p.x - q.x = 1 := by omega
  have hy3 : p.y - q.y = -1 ∨ p.y - q.y = 0 ∨ p.y - q.y = 1 := by omega
  have hne' : ¬(p.x - q.x = 0 ∧ p.y - q.y = 0) := by
    rintro ⟨a, b⟩
    exact hne ⟨by omega, by omega⟩
  simp only [get_move_cost, Position.distance_to]
  rcases hx3 with h1 | h1 | h1 <;> rcases hy3 with h2 | h2 | h2 <;>
    try (rw [h1, h2]; push_cast; norm_num [Real.sqrt_one])
  exact absurd ⟨h1, h2⟩ hne'

/-- Witness for `c8_move_cost_amended` at the horizontal step (0,0) → (1,0). -/
theorem c8_move_cost_amended_witness :
    (|(0 : ℤ) - 1| ≤ 1 ∧ |(0 : ℤ) - 0| ≤ 1 ∧ ¬((0 : ℤ) = 1 ∧ (0 : ℤ) = 0)) ∧
    get_move_cost ⟨0, 0⟩ ⟨1, 0⟩ =
      if |(0 : ℤ) - 1| = 1 ∧ |(0 : ℤ) - 0| = 1 then Real.sqrt 2 * 1.414 else 1 :=
  ⟨by norm_num,
   c8_move_cost_amended ⟨0, 0⟩ ⟨1, 0⟩ (by norm_num) (by norm_num) (by norm_num)⟩

/-- The two mutating operations of the occupancy grid considered by the
occupancy-invariant claim. -/
inductive CAOp where
  | update (robot_id : String) (world_x world_y : ℤ)
  | clear (robot_id : String)

/-- Apply one occupancy-grid operation. -/
def CASystem.apply_op (s : CASystem) : CAOp → CASystem
  | .update rid wx wy => s.update_robot_position rid wx wy
  | .clear rid => s.clear_robot rid

/-- Apply a finite sequence of occupancy-grid operations. -/
def CASystem.apply_ops (s : CASystem) (ops : List CAOp) : CASystem :=
  ops.foldl CASystem.apply_op s

/-- C4: after any finite sequence of `update_robot_position` / `clear_robot`
calls from the initial empty grid, every cell records at most one occupying
unit id, so the occupied-cell sets of two distinct units never intersect. -/
theorem c4_occupancy_disjoint (gridSize : ℤ) (ops : List CAOp) (p : Position)
    (r1 r2 : String) (hne : r1 ≠ r2) :
    (∀ a b : String, (((initCASystem gridSize).apply_ops ops).grid p).robot_id = some a →
        (((initCASystem gridSize).apply_ops ops).grid p).robot_id = some b → a = b) ∧
    ¬((((initCASystem gridSize).apply_ops ops).grid p).robot_id = some r1 ∧
      (((initCASystem gridSize).apply_ops ops).grid p).robot_id = some r2) := by
  constructor
  · intro a b ha hb
    rw [ha] at hb
    exact (Option.some.injEq _ _).mp hb
  · rintro ⟨h1, h2⟩
    rw [h1] at h2
    exact hne ((Option.some.injEq _ _).mp h2)

/-- Witness for `c4_occupancy_disjoint`: two updates on a 10mm grid, the cell
(16,16) inside the first unit's footprint, two distinct unit ids. -/
theorem c4_occupancy_disjoint_witness :
    ("A" ≠ "B") ∧
    ((∀ a b : String,
        (((initCASystem 10).apply_ops
            [.update "A" 200 200, .update "B" 300 300]).grid ⟨16, 16⟩).robot_id = some a →
        (((initCASystem 10).apply_ops
            [.update "A" 200 200, .update "B" 300 300]).grid ⟨16, 16⟩).robot_id = some b →
        a = b) ∧
      ¬((((initCASystem 10).apply_ops
            [.update "A" 200 200, .update "B" 300 300]).grid ⟨16, 16⟩).robot_id = some "A" ∧
        (((initCASystem 10).apply_ops
            [.update "A" 200 200, .update "B" 300 300]).grid ⟨16, 16⟩).robot_id = some "B")) :=
  ⟨by decide, c4_occupancy_disjoint 10 [.update "A" 200 200, .update "B" 300 300]
      ⟨16, 16⟩ "A" "B" (by decide)⟩

/-- C2 failing input: robot A reports world position (200,200); B asks whether
moving to world target (205,205) is safe.  The target cell (16,16) is inside
A's marked footprint, and the source then measures the distance from the world
target to A's stored *grid* coordinates (15,15) — about 268.7 — instead of to
A's world position (200,200), so it answers `true`; the true world distance is
√50 ≈ 7.07 < 50, so under the claim the answer would have to be `false`. -/
theorem c2_is_safe_to_move_uses_grid_coords :
    ((initCASystem 10).update_robot_position "A" 200 200).is_safe_to_move "B" (205, 205) = true ∧
    Real.sqrt (((205 - 200 : ℤ) : ℝ) ^ 2 + ((205 - 200 : ℤ) : ℝ) ^ 2) < 50 := by
  constructor
  · simp only [CASystem.is_safe_to_move]
    rw [show ((initCASystem 10).update_robot_position "A" 200 200).world_to_grid 205 205 =
        (16, 16) from by decide]
    rw [show ((initCASystem 10).update_robot_position "A" 200 200).is_passable
        ⟨(16, 16).1, (16, 16).2⟩ "B" = false from by decide]
    rw [show ((initCASystem 10).update_robot_position "A" 200 200).grid
        ⟨(16, 16).1, (16, 16).2⟩ =
        { cell_type := .ROBOT, cost := 1, robot_id := some "A" } from by decide]
    simp only [Bool.false_eq_true, if_false, ne_eq, reduceCtorEq, not_false_eq_true,
      and_self, if_true]
    rw [show List.lookup "A" ((initCASystem 10).update_robot_position "A" 200 200).robots =
        some { id := "A", position := ⟨15, 15⟩, safe_radius := 25 } from by decide]
    norm_num
    rw [Real.lt_sqrt (by positivity)]
    norm_num
    decide
  · rw [show ((205 - 200 : ℤ) : ℝ) = 5 by norm_num]
    rw [Real.sqrt_lt' (by norm_num)]
    norm_num

/-- C9: `get_movement_vector` is `none` with fewer than 2 samples in the
window or zero elapsed time between the oldest and newest such samples, and
`predict_position` returns the current position unchanged whenever no velocity
is derivable — in particular for a unit with no recorded history. -/
theorem c9_vector_none_predict_current (s : PositionTracker) (cube_id : String)
    (time_window now future_time : ℚ) :
    ((s.get_position_history cube_id (some time_window) now).length < 2 →
      s.get_movement_vector cube_id time_window now = none) ∧
    (∀ oldest newest : PositionHistory,
      (s.get_position_history cube_id (some time_window) now).head? = some oldest →
      (s.get_position_history cube_id (some time_window) now).getLast? = some newest →
      newest.timestamp = oldest.timestamp →
      s.get_movement_vector cube_id time_window now = none) ∧
    (∀ cp : ℤ × ℤ, s.current_positions.lookup cube_id = some cp →
      s.get_movement_vector cube_id 1 now = none →
      s.predict_position cube_id future_time now = some cp) ∧
    (s.position_history.lookup cube_id = none →
      s.get_movement_vector cube_id time_window now = none) := by
  refine ⟨?_, ?_, ?_, ?_⟩
  · intro h
    simp only [PositionTracker.get_movement_vector]
    rw [if_pos h]
  · intro oldest newest hh hl hts
    simp only [PositionTracker.get_movement_vector]
    by_cases hlen : (s.get_position_history cube_id (some time_window) now).length < 2
    · rw [if_pos hlen]
    · rw [if_neg hlen, hh, hl]
      have hz : newest.timestamp - oldest.timestamp ≤ 0 := by rw [hts]; simp
      exact if_pos hz
  · intro cp hcp hmv
    simp only [PositionTracker.predict_position]
    rw [hcp, hmv]
  · intro h
    have hhist : s.get_position_history cube_id (some time_window) now = [] := by
      simp [PositionTracker.get_position_history, h]
    simp [PositionTracker.get_movement_vector, hhist]

/-- Witness for `c9_vector_none_predict_current`: a tracker that knows unit A's
current position but holds a single (hence insufficient) history sample. -/
theorem c9_vector_none_predict_current_witness :
    ((PositionTracker.mk [("A", (100, 100))] [("A", [⟨0, 100, 100⟩])]).get_position_history
        "A" (some 1) 0).length < 2 ∧
    (PositionTracker.mk [("A", (100, 100))] [("A", [⟨0, 100, 100⟩])]).get_movement_vector
        "A" 1 0 = none ∧
    (PositionTracker.mk [("A", (100, 100))] [("A", [⟨0, 100, 100⟩])]).predict_position
        "A" (1 / 2) 0 = some (100, 100) := by
  have hlen : ((PositionTracker.mk [("A", (100, 100))]
      [("A", [⟨0, 100, 100⟩])]).get_position_history "A" (some 1) 0).length < 2 := by
    simp [PositionTracker.get_position_history]
  refine ⟨hlen, ?_, ?_⟩
  · exact (c9_vector_none_predict_current (PositionTracker.mk [("A", (100, 100))]
      [("A", [⟨0, 100, 100⟩])]) "A" 1 0 (1 / 2)).1 hlen
  · exact (c9_vector_none_predict_current (PositionTracker.mk [("A", (100, 100))]
      [("A", [⟨0, 100, 100⟩])]) "A" 1 0 (1 / 2)).2.2.1 (100, 100) (by decide)
      ((c9_vector_none_predict_current (PositionTracker.mk [("A", (100, 100))]
        [("A", [⟨0, 100, 100⟩])]) "A" 1 0 (1 / 2)).1 hlen)

/-- C5 counterexample: an emergency stop with 3 queued requests, 2 active
plans and units u1, u2 connected clears both tables — but attempts no physical
stop command at all, so in particular none for connected unit u1. -/
theorem c5_emergency_stop_counterexample :
    ((PathPlanner.mk
        [⟨"u1", (100, 100), (200, 200), .NORMAL, 0, 5⟩,
         ⟨"u2", (100, 100), (300, 300), .NORMAL, 0, 5⟩,
         ⟨"u3", (100, 100), (400, 400), .HIGH, 0, 5⟩]
        [("u1", ⟨"u1", [(100, 100)], 1, 0, []⟩),
         ("u2", ⟨"u2", [(200, 200)], 1, 0, []⟩)]).planning_queue.length = 3 ∧
     (PathPlanner.mk
        [⟨"u1", (100, 100), (200, 200), .NORMAL, 0, 5⟩,
         ⟨"u2", (100, 100), (300, 300), .NORMAL, 0, 5⟩,
         ⟨"u3", (100, 100), (400, 400), .HIGH, 0, 5⟩]
        [("u1", ⟨"u1", [(100, 100)], 1, 0, []⟩),
         ("u2", ⟨"u2", [(200, 200)], 1, 0, []⟩)]).active_paths.length = 2) ∧
    (PathPlanner.mk
        [⟨"u1", (100, 100), (200, 200), .NORMAL, 0, 5⟩,
         ⟨"u2", (100, 100), (300, 300), .NORMAL, 0, 5⟩,
         ⟨"u3", (100, 100), (400, 400), .HIGH, 0, 5⟩]
        [("u1", ⟨"u1", [(100, 100)], 1, 0, []⟩),
         ("u2", ⟨"u2", [(200, 200)], 1, 0, []⟩)]).emergency_stop_all.1.planning_queue = [] ∧
    (PathPlanner.mk
        [⟨"u1", (100, 100), (200, 200), .NORMAL, 0, 5⟩,
         ⟨"u2", (100, 100), (300, 300), .NORMAL, 0, 5⟩,
         ⟨"u3", (100, 100), (400, 400), .HIGH, 0, 5⟩]
        [("u1", ⟨"u1", [(100, 100)], 1, 0, []⟩),
         ("u2", ⟨"u2", [(200, 200)], 1, 0, []⟩)]).emergency_stop_all.1.active_paths = [] ∧
    ¬("u1" ∈ (PathPlanner.mk
        [⟨"u1", (100, 100), (200, 200), .NORMAL, 0, 5⟩,
         ⟨"u2", (100, 100), (300, 300), .NORMAL, 0, 5⟩,
         ⟨"u3", (100, 100), (400, 400), .HIGH, 0, 5⟩]
        [("u1", ⟨"u1", [(100, 100)], 1, 0, []⟩),
         ("u2", ⟨"u2", [(200, 200)], 1, 0, []⟩)]).emergency_stop_all.2) := by
  refine ⟨⟨rfl, rfl⟩, rfl, rfl, ?_⟩
  simp [PathPlanner.emergency_stop_all]

/-- C5 amended: for every planner state, `emergency_stop_all` leaves the
request queue and the active-plan table empty immediately after, and issues no
physical stop command (the stop of every connected unit claimed by the spec
does not exist in the source). -/
theorem c5_emergency_stop_amended (s : PathPlanner) :
    s.emergency_stop_all.1.planning_queue = [] ∧
    s.emergency_stop_all.1.active_paths = [] ∧
    s.emergency_stop_all.2 = [] :=
  ⟨rfl, rfl, rfl⟩

/-- Two chained boolean guards with the same positive branch collapse to a
disjunction. -/
theorem ite_ite_or {α : Type} (a b : Bool) (x y : α) :
    (if a = true then x else if b = true then x else y) =
    (if (a || b) = true then x else y) := by
  cases a <;> cases b <;> simp

/-- `_cube_volumes_overlap` at footprint side 50, characterised: the centers
are within the side length along both axes. -/
theorem overlap50_bool (t p : ℤ × ℤ) :
    cube_volumes_overlap t p 50 = decide (|t.1 - p.1| ≤ 50 ∧ |t.2 - p.2| ≤ 50) := by
  simp only [cube_volumes_overlap]
  rw [show (50 : ℤ).fdiv 2 = 25 from by decide]
  rw [decide_eq_decide, abs_le, abs_le]
  omega

/-- Claim-side reservation-conflict predicate for footprint side 50: some
*other* unit's live reservation or current position has its center separated
from the requested center by at most the side length (50) along both axes. -/
def spec_reserve_conflict (s : ToioController) (cube_id : String) (target : ℤ × ℤ) : Bool :=
  (s.reserved_targets ++ s.get_all_positions).any fun e =>
    e.1 ≠ cube_id && decide (|target.1 - e.2.1| ≤ 50 ∧ |target.2 - e.2.2| ≤ 50)

/-- C3: `_reserve_target` with footprint side 50 fails, leaving the table
unchanged, exactly when the claim-side overlap condition holds against some
other unit's live reservation or current position, and otherwise records the
reservation and succeeds; in particular (210,210) against a live reservation
at (200,200) fails while (260,260) against the same reservation succeeds. -/
theorem c3_reserve_target_spec (s : ToioController) (cube_id : String) (target : ℤ × ℤ) :
    (s.reserve_target cube_id target 50 =
      if spec_reserve_conflict s cube_id target = true then (false, s)
      else (true, { s with
        reserved_targets := updateAssoc s.reserved_targets cube_id target })) ∧
    (ToioController.mk [] [("A", (200, 200))]).reserve_target "B" (210, 210) 50 =
      (false, ToioController.mk [] [("A", (200, 200))]) ∧
    (ToioController.mk [] [("A", (200, 200))]).reserve_target "B" (260, 260) 50 =
      (true, ToioController.mk [] [("A", (200, 200)), ("B", (260, 260))]) := by
  refine ⟨?_, by decide, by decide⟩
  have hcond : spec_reserve_conflict s cube_id target =
      ((s.reserved_targets.any fun rp =>
          rp.1 ≠ cube_id && cube_volumes_overlap target rp.2 50) ||
        ((s.get_all_positions).any fun op =>
          op.1 ≠ cube_id && cube_volumes_overlap target op.2 50)) := by
    simp only [spec_reserve_conflict, List.any_append, overlap50_bool]
  simp only [ToioController.reserve_target]
  rw [ite_ite_or, hcond]

/-- C6 counterexample: a connected cube whose position is unknown — the
safe-move operation aborts with `false` and issues no (raw or checked) move
command, instead of falling back to a direct raw move as claimed. -/
theorem c6_missing_telemetry_counterexample :
    (ToioController.mk [("cube_1", ⟨"cube_1", false, none, true, true⟩)] []).cubes.lookup
        "cube_1" = some ⟨"cube_1", false, none, true, true⟩ ∧
    (ToioController.mk [("cube_1", ⟨"cube_1", false, none, true, true⟩)] []).move_to_safe
        "cube_1" 300 300 0 =
      (false, ToioController.mk [("cube_1", ⟨"cube_1", false, none, true, true⟩)] [], []) :=
  ⟨rfl, rfl⟩

/-- C6 amended: a connected cube with no available position makes
`move_to_safe` return `false` without issuing any physical move command and
without mutating any state; there is no degraded raw-move fallback. -/
theorem c6_missing_telemetry_amended (s : ToioController) (cube_id : String)
    (x y angle : ℤ) (c : CubeState) (hc : s.cubes.lookup cube_id = some c)
    (hconn : c.connected = true) (hpos : c.position = none) :
    s.move_to_safe cube_id x y angle = (false, s, []) := by
  simp only [ToioController.move_to_safe, hc, hconn, hpos]
  simp

/-- Witness for `c6_missing_telemetry_amended`: a connected simulated cube
with no recorded position. -/
theorem c6_missing_telemetry_amended_witness :
    (ToioController.mk [("cube_2", ⟨"cube_2", true, none, true, true⟩)] []).cubes.lookup
        "cube_2" = some ⟨"cube_2", true, none, true, true⟩ ∧
    (⟨"cube_2", true, none, true, true⟩ : CubeState).connected = true ∧
    (⟨"cube_2", true, none, true, true⟩ : CubeState).position = none ∧
    (ToioController.mk [("cube_2", ⟨"cube_2", true, none, true, true⟩)] []).move_to_safe
        "cube_2" 120 130 45 =
      (false, ToioController.mk [("cube_2", ⟨"cube_2", true, none, true, true⟩)] [], []) :=
  ⟨rfl, rfl, rfl, c6_missing_telemetry_amended _ "cube_2" 120 130 45 _ rfl rfl rfl⟩

/-- `pyInt` is the identity on integers. -/
theorem pyInt_intCast (n : ℤ) : pyInt ((n : ℤ) : ℝ) = n := by
  unfold pyInt
  split <;> simp

/-- `pyInt` respects integer lower bounds of its (nonnegative) argument. -/
theorem le_pyInt {n : ℤ} {x : ℝ} (hn : 0 ≤ n) (h : (n : ℝ) ≤ x) : n ≤ pyInt x := by
  unfold pyInt
  rw [if_pos (le_trans (by exact_mod_cast hn) h)]
  exact Int.le_floor.mpr h

/-- Controller state for the reservation-conflict scenario: cube A holds a
live reservation at (200,200) (its own safe move still in flight), A sits at
(350,350), B sits at (100,100), and B is about to request target (210,210),
whose 50-side footprint overlaps A's reservation. -/
def c1_state : ToioController :=
  { cubes := [("A", { id := "A", sim := false, position := some ((350, 350), 0) }),
              ("B", { id := "B", sim := false, position := some ((100, 100), 0) })],
    reserved_targets := [("A", (200, 200))] }

/-- The state after B's in-call reservation of the alternative target. -/
def c1_state_res : ToioController :=
  { cubes := [("A", { id := "A", sim := false, position := some ((350, 350), 0) }),
              ("B", { id := "B", sim := false, position := some ((100, 100), 0) })],
    reserved_targets := [("A", (200, 200)), ("B", (210, 275))] }

/-- The first spiral candidate (radius 65, angle 0°) around (210,210) is the
collision-free point (210,275). -/
theorem c1_cand : c1_state.alt_candidate (210, 210) "B" 50 65 0 = some (210, 275) := by
  simp only [ToioController.alt_candidate, show ((0 : ℤ) : ℝ) * 3.14159 / 180 = 0 by norm_num,
    Real.sqrt_zero, mul_zero, add_zero, sub_zero, mul_one]
  rw [show ((210 : ℤ) : ℝ) + ((65 : ℤ) : ℝ) = ((275 : ℤ) : ℝ) by norm_num]
  rw [pyInt_intCast, pyInt_intCast]
  decide

/-- In `c1_state`, the alternative-target search for B's conflicting request
(210,210) succeeds immediately with (210,275). -/
theorem c1_findalt : c1_state.find_safe_alternative_target (210, 210) "B" 50 =
    some (210, 275) := by
  simp only [ToioController.find_safe_alternative_target]
  rw [show pyRange (50 + 15) ((50 + 15) * 3) 5 =
      65 :: [70, 75, 80, 85, 90, 95, 100, 105, 110, 115, 120, 125, 130, 135, 140, 145,
             150, 155, 160, 165, 170, 175, 180, 185, 190] from by decide]
  rw [List.findSome?_cons]
  simp only [List.findSome?_cons, c1_cand]

/-- In `c1_state_res` the direct path from B's position to the alternative
target is clear, so the movement is a single curve move command. -/
theorem c1_exec : c1_state_res.execute_safe_movement "B" (100, 100) (210, 275) 0 =
    (true, c1_state_res, [⟨"B", 210, 275, 0⟩]) := by
  simp only [ToioController.execute_safe_movement]
  rw [show c1_state_res.check_path_collision (100, 100) (210, 275) "B" 50 = false from by decide]
  simp only [reduceIte]
  decide

/-- Full evaluation of B's safe move request for (210,210) in `c1_state`: the
call redirects to the alternative target (210,275), issues the physical move
command for it, reports success, and ends with the reservation table restored. -/
theorem c1_move_eval : c1_state.move_to_safe "B" 210 210 0 =
    (true, c1_state, [⟨"B", 210, 275, 0⟩]) := by
  simp only [ToioController.move_to_safe]
  rw [show List.lookup "B" c1_state.cubes =
      some ⟨"B", false, some ((100, 100), 0), true, true⟩ from by decide]
  simp only [Bool.true_eq_false, if_false, reduceCtorEq, reduceIte]
  rw [show c1_state.target_has_collision (210, 210) "B" 50 = true from by decide]
  simp only [if_true, reduceIte]
  rw [c1_findalt]
  show (((c1_state.reserve_target "B" (210, 275) 50).2.execute_safe_movement
          "B" (100, 100) (210, 275) 0).1,
        ((c1_state.reserve_target "B" (210, 275) 50).2.execute_safe_movement
          "B" (100, 100) (210, 275) 0).2.1.release_target "B",
        ((c1_state.reserve_target "B" (210, 275) 50).2.execute_safe_movement
          "B" (100, 100) (210, 275) 0).2.2) =
      (true, c1_state, [⟨"B", 210, 275, 0⟩])
  rw [show (c1_state.reserve_target "B" (210, 275) 50).2 = c1_state_res from by decide]
  rw [c1_exec]
  decide

/-- C1 counterexample: in `c1_state`, B is connected with known position, and
reserving B's requested footprint (210,210) fails because it overlaps A's live
reservation at (200,200); yet `move_to_safe` does not return false and it does
issue a physical move command (to the alternative target (210,275)). -/
theorem c1_reserve_failure_counterexample :
    c1_state.target_has_collision (210, 210) "B" 50 = true ∧
    (c1_state.reserve_target "B" (210, 210) 50).1 = false ∧
    (c1_state.move_to_safe "B" 210 210 0).1 = true ∧
    (c1_state.move_to_safe "B" 210 210 0).2.2 = [⟨"B", 210, 275, 0⟩] := by
  refine ⟨by decide, by decide, ?_, ?_⟩ <;> rw [c1_move_eval]

/-- C1 amended: when the requested footprint overlaps another unit's live
reservation or current position (so that reserving it would fail) *and* the
search for a safe alternative target also fails, the safe-move call returns
false, issues no physical move command, and leaves the state unchanged. -/
theorem c1_reservation_conflict_amended (s : ToioController) (cube_id : String)
    (x y angle : ℤ) (c : CubeState)
    (hc : s.cubes.lookup cube_id = some c) (hconn : c.connected = true)
    (hpos : c.position.isSome = true)
    (hcol : s.target_has_collision (x, y) cube_id 50 = true)
    (halt : s.find_safe_alternative_target (x, y) cube_id 50 = none) :
    s.move_to_safe cube_id x y angle = (false, s, []) := by
  obtain ⟨pa, hp⟩ := Option.isSome_iff_exists.mp hpos
  obtain ⟨pt, a⟩ := pa
  simp only [ToioController.move_to_safe, hc, hconn, hp, hcol, halt]
  simp

/-- Controller state for the amended-claim witness: A sits at (990,1000), so
B's request for (1000,1000) overlaps A's position, and the whole spiral of
alternative candidates lies far outside the 35–365 bounds. -/
def c1w_state : ToioController :=
  { cubes := [("A", { id := "A", sim := false, position := some ((990, 1000), 0) }),
              ("B", { id := "B", sim := false, position := some ((100, 100), 0) })],
    reserved_targets := [] }

/-- Around (1000,1000) every spiral candidate fails the bounds check: its x
coordinate is at least 1000. -/
theorem c1w_cand_none (radius angle_deg : ℤ) (hr : 0 ≤ radius) :
    c1w_state.alt_candidate (1000, 1000) "B" 50 radius angle_deg = none := by
  simp only [ToioController.alt_candidate, show Int.fdiv 50 2 = 25 from by decide]
  rw [if_neg]
  rintro ⟨h1, h2, h3, h4⟩
  have h0 : (0 : ℝ) ≤ (radius : ℝ) * Real.sqrt ((angle_deg : ℝ) * 3.14159 / 180) :=
    mul_nonneg (by exact_mod_cast hr) (Real.sqrt_nonneg _)
  have harg : ((1000 : ℤ) : ℝ) ≤ ((1000 : ℤ) : ℝ) +
      (radius : ℝ) * Real.sqrt ((angle_deg : ℝ) * 3.14159 / 180) :=
    le_add_of_nonneg_right h0
  have hge := le_pyInt (by norm_num) harg
  omega

/-- The alternative-target search around (1000,1000) finds nothing. -/
theorem c1w_findalt_none :
    c1w_state.find_safe_alternative_target (1000, 1000) "B" 50 = none := by
  have hr0 : ∀ r ∈ pyRange (50 + 15) ((50 + 15) * 3) 5, (0 : ℤ) ≤ r := by decide
  simp only [ToioController.find_safe_alternative_target]
  rw [List.findSome?_eq_none_iff]
  intro radius hr
  rw [List.findSome?_eq_none_iff]
  intro angle_deg ha
  exact c1w_cand_none radius angle_deg (hr0 radius hr)

/-- Witness for `c1_reservation_conflict_amended` at `c1w_state`. -/
theorem c1_reservation_conflict_amended_witness :
    (c1w_state.cubes.lookup "B" = some ⟨"B", false, some ((100, 100), 0), true, true⟩ ∧
     (⟨"B", false, some ((100, 100), 0), true, true⟩ : CubeState).connected = true ∧
     (⟨"B", false, some ((100, 100), 0), true, true⟩ : CubeState).position.isSome = true ∧
     c1w_state.target_has_collision (1000, 1000) "B" 50 = true ∧
     c1w_state.find_safe_alternative_target (1000, 1000) "B" 50 = none) ∧
    c1w_state.move_to_safe "B" 1000 1000 0 = (false, c1w_state, []) :=
  ⟨⟨by decide, rfl, rfl, by decide, c1w_findalt_none⟩,
   c1_reservation_conflict_amended c1w_state "B" 1000 1000 0
     ⟨"B", false, some ((100, 100), 0), true, true⟩ (by decide) rfl rfl
     (by decide) c1w_findalt_none⟩

theorem popMinAux_snd_length (l : List PathNode) : ∀ (best : PathNode) (seen : List PathNode),
    (popMinAux best seen l).2.length = seen.length + l.length := by
  induction l with
  | nil => intro best seen; simp [popMinAux]
  | cons n rest ih =>
    intro best seen
    simp only [popMinAux]
    split
    · rw [ih]; simp; omega
    · rw [ih]; simp; omega

theorem popMinAux_fst_mem (l : List PathNode) : ∀ (best : PathNode) (seen : List PathNode),
    (popMinAux best seen l).1 = best ∨ (popMinAux best seen l).1 ∈ l := by
  induction l with
  | nil => intro best seen; left; rfl
  | cons n rest ih =>
    intro best seen
    simp only [popMinAux]
    split
    · rcases ih n (best :: seen) with h | h
      · right; rw [h]; exact List.mem_cons_self _ _
      · right; exact List.mem_cons_of_mem _ h
    · rcases ih best (n :: seen) with h | h
      · left; exact h
      · right; exact List.mem_cons_of_mem _ h

theorem popMinAux_snd_subset (l : List PathNode) : ∀ (best : PathNode) (seen : List PathNode)
    (x : PathNode), x ∈ (popMinAux best seen l).2 → x ∈ seen ∨ x = best ∨ x ∈ l := by
  induction l with
  | nil =>
    intro best seen x hx
    simp only [popMinAux] at hx
    left
    exact List.mem_reverse.mp hx
  | cons n rest ih =>
    intro best seen x hx
    simp only [popMinAux] at hx
    split at hx
    · rcases ih n (best :: seen) x hx with h | h | h
      · rcases List.mem_cons.mp h with h1 | h1
        · right; left; exact h1
        · left; exact h1
      · right; right; rw [h]; exact List.mem_cons_self _ _
      · right; right; exact List.mem_cons_of_mem _ h
    · rcases ih best (n :: seen) x hx with h | h | h
      · rcases List.mem_cons.mp h with h1 | h1
        · right; right; rw [h1]; exact List.mem_cons_self _ _
        · left; exact h1
      · right; left; exact h
      · right; right; exact List.mem_cons_of_mem _ h

theorem heappop_some_length {l : List PathNode} {n : PathNode} {rest : List PathNode}
    (h : heappop l = some (n, rest)) : l.length = rest.length + 1 := by
  cases l with
  | nil => simp [heappop] at h
  | cons a tl =>
    simp only [heappop, Option.some.injEq] at h
    have := popMinAux_snd_length tl a []
    rw [h] at this
    simp at this
    simp [this]

theorem heappop_some_mem {l : List PathNode} {n : PathNode} {rest : List PathNode}
    (h : heappop l = some (n, rest)) : n ∈ l := by
  cases l with
  | nil => simp [heappop] at h
  | cons a tl =>
    simp only [heappop, Option.some.injEq] at h
    have := popMinAux_fst_mem tl a []
    rw [h] at this
    rcases this with h1 | h1
    · rw [← h1]; exact List.mem_cons_self _ _
    · exact List.mem_cons_of_mem _ h1

theorem heappop_some_subset {l : List PathNode} {n : PathNode} {rest : List PathNode}
    (h : heappop l = some (n, rest)) : ∀ x ∈ rest, x ∈ l := by
  intro x hx
  cases l with
  | nil => simp [heappop] at h
  | cons a tl =>
    simp only [heappop, Option.some.injEq] at h
    have := popMinAux_snd_subset tl a [] x (by rw [h]; exact hx)
    rcases this with h1 | h1 | h1
    · simp at h1
    · rw [h1]; exact List.mem_cons_self _ _
    · exact List.mem_cons_of_mem _ h1

theorem get_neighbors_length (s : CASystem) (p : Position) :
    (s.get_neighbors p).length ≤ 8 := by
  have := List.length_filterMap_le
    (fun d : ℤ × ℤ =>
      let q : Position := ⟨p.x + d.1, p.y + d.2⟩
      if 0 ≤ q.x ∧ q.x < s.grid_width ∧ 0 ≤ q.y ∧ q.y < s.grid_height then some q
      else none)
    ([(-1, -1), (-1, 0), (-1, 1), (0, -1), (0, 1), (1, -1), (1, 0), (1, 1)] : List (ℤ × ℤ))
  simpa [CASystem.get_neighbors] using this

theorem get_neighbors_mem_grid (s : CASystem) (p q : Position)
    (h : q ∈ s.get_neighbors p) : q ∈ s.grid_positions := by
  simp only [CASystem.get_neighbors, List.mem_filterMap] at h
  obtain ⟨d, hd, hq⟩ := h
  split at hq
  · next hb =>
    simp only [Option.some.injEq] at hq
    subst hq
    simp only [CASystem.grid_positions, Finset.mem_image]
    refine ⟨(p.x + d.1, p.y + d.2), ?_, rfl⟩
    simp only [Finset.mem_product, Finset.mem_Icc]
    omega
  · simp at hq

theorem astar_loop_isSome (s : CASystem) (goal : Position) (robot_id : String)
    (U : Finset Position) (hU : s.grid_positions ⊆ U) :
    ∀ (fuel : Nat) (open_list : List PathNode) (closed_set : Finset Position),
    (∀ n ∈ open_list, n.position ∈ U) →
    open_list.length + 9 * (U \ closed_set).card + 1 ≤ fuel →
    (astar_loop s goal robot_id fuel open_list closed_set).isSome = true := by
  intro fuel
  induction fuel with
  | zero =>
    intro ol cs hinv hb
    omega
  | succ fuel ih =>
    intro ol cs hinv hb
    rw [astar_loop]
    cases hpop : heappop ol with
    | none => simp
    | some pr =>
      obtain ⟨cur, rest⟩ := pr
      have hlen := heappop_some_length hpop
      have hcurU : cur.position ∈ U := hinv _ (heappop_some_mem hpop)
      have hrest : ∀ n ∈ rest, n.position ∈ U := fun n hn =>
        hinv n (heappop_some_subset hpop n hn)
      simp only
      by_cases hc : cur.position ∈ cs
      · rw [if_pos hc]
        exact ih rest cs hrest (by omega)
      · rw [if_neg hc]
        by_cases hg : cur.position = goal
        · rw [if_pos hg]
          simp
        · rw [if_neg hg]
          have hcard : (U \ insert cur.position cs).card = (U \ cs).card - 1 := by
            rw [Finset.sdiff_insert, Finset.card_erase_of_mem
              (Finset.mem_sdiff.mpr ⟨hcurU, hc⟩)]
          have hpos1 : 1 ≤ (U \ cs).card :=
            Finset.card_pos.mpr ⟨cur.position, Finset.mem_sdiff.mpr ⟨hcurU, hc⟩⟩
          apply ih
          · intro n hn
            rcases List.mem_append.mp hn with h | h
            · exact hrest n h
            · obtain ⟨q, hq, hqn⟩ := List.mem_filterMap.mp h
              split at hqn
              · simp at hqn
              · split at hqn
                · simp at hqn
                · simp only [Option.some.injEq] at hqn
                  subst hqn
                  exact hU (get_neighbors_mem_grid s _ q hq)
          · have hpush : ((s.get_neighbors cur.position).filterMap fun neighbor_pos =>
                if neighbor_pos ∈ insert cur.position cs then none
                else if ¬(s.is_passable neighbor_pos robot_id = true) then none
                else some (PathNode.mk neighbor_pos
                  (cur.g_cost + get_move_cost cur.position neighbor_pos)
                  ((neighbor_pos.manhattan_distance_to goal : ℤ) : ℝ)
                  (cur.g_cost + get_move_cost cur.position neighbor_pos +
                    ((neighbor_pos.manhattan_distance_to goal : ℤ) : ℝ))
                  (some cur))).length ≤ 8 :=
              le_trans (List.length_filterMap_le _ _) (get_neighbors_length s _)
            rw [List.length_append]
            omega

/-- C10: for every grid, start, goal and robot id, the A* search loop
terminates within the stated fuel bound: each grid position enters the closed
set at most once and each expansion pushes at most 8 nodes, so the loop always
returns a result (a path or the empty list). -/
theorem c10_astar_terminates (s : CASystem) (start goal : Position) (robot_id : String) :
    (astar_loop s goal robot_id (astar_fuel s start)
      [astar_start_node start goal] ∅).isSome = true := by
  apply astar_loop_isSome s goal robot_id (insert start s.grid_positions)
    (Finset.subset_insert _ _)
  · intro n hn
    rcases List.mem_cons.mp hn with h | h
    · rw [h]
      exact Finset.mem_insert_self _ _
    · simp at h
  · rw [Finset.sdiff_empty]
    simp only [astar_fuel, List.length_singleton]
    omega
